import Mathlib

/-!
# Hysteresis state controller of `drvassist.c`

A shallow embedding of `src/src/drvassist.c` and `src/include/drvassist.h`.

* C `float` values are embedded as `F32`: NaN, the two infinities, or a finite
  value carried as a rational.  Every finite binary32 value is a rational, so a
  statement proved for all `F32` holds for all C floats; the two zeros compare
  equal in C and are both `fin 0` here.  The policies only compare floats and
  take `fabsf`, both of which are exact operations; `read_sensors` adds and
  divides, and `F32.ofRatio` rounds the exact result to binary32.
* `void f(const SensorFrame* s, DashState* st, const AssistCalib* c)` becomes a
  function returning the new `DashState`.
-/

namespace Drvassist

/-! ## Floats: comparison and absolute value -/

/-- A C `float`: NaN, minus infinity, a finite value, or plus infinity. -/
inductive F32 where
  | nan : F32
  | ninf : F32
  | fin (q : ℚ) : F32
  | pinf : F32
deriving DecidableEq

namespace F32

/-- The C operator `a < b` on floats: false as soon as an operand is NaN. -/
def lt : F32 → F32 → Bool
  | nan, _ => false
  | _, nan => false
  | ninf, ninf => false
  | ninf, _ => true
  | fin _, ninf => false
  | fin a, fin b => decide (a < b)
  | fin _, pinf => true
  | pinf, _ => false

/-- The C operator `a > b` on floats. -/
def gt (a b : F32) : Bool := lt b a

/-- The C operator `a <= b` on floats: false as soon as an operand is NaN. -/
def le : F32 → F32 → Bool
  | nan, _ => false
  | _, nan => false
  | ninf, _ => true
  | fin _, ninf => false
  | fin a, fin b => decide (a ≤ b)
  | fin _, pinf => true
  | pinf, pinf => true
  | pinf, _ => false

/-- The C library function `fabsf`. -/
def fabsf : F32 → F32
  | nan => nan
  | ninf => pinf
  | fin q => fin |q|
  | pinf => pinf

/-- Unary minus on floats. -/
def neg : F32 → F32
  | nan => nan
  | ninf => pinf
  | fin q => fin (-q)
  | pinf => ninf

/-- The integer nearest to the quotient `n / d` of two naturals (`d` positive),
the even one of the two when `n / d` lies halfway between them. -/
def round_half_even (n d : Nat) : Nat :=
  let q := n / d
  let r := n % d
  if 2 * r < d then q
  else if d < 2 * r then q + 1
  else if q % 2 = 0 then q else q + 1

/-- The number of binary digits of `n` (`fuel` bounds the recursion; `n` itself
is always enough). -/
def bit_length : Nat → Nat → Nat
  | 0, _ => 0
  | fuel + 1, n => if n = 0 then 0 else bit_length fuel (n / 2) + 1

/-- The binary32 exponent of the positive quotient `a / d`: the `e` with
`2^e <= a / d < 2^(e+1)`, and `-126` (the subnormal range) when that is smaller. -/
def binade (a d : Nat) : Int :=
  let e0 : Int := (bit_length a a : Int) - (bit_length d d : Int)
  let e1 : Int := if a * 2 ^ (-e0).toNat < d * 2 ^ e0.toNat then e0 - 1 else e0
  if e1 < -126 then -126 else e1

/-- The quotient `n / d` rounded to binary32 in the default rounding mode (to
nearest, ties to even): 24 significant bits, least exponent `-126`, overflow to
an infinity.  This is the result of a float operation whose exact result is
`n / d`, and of converting the decimal literal `n / d`. -/
def ofRatio (n : Int) (d : Nat) : F32 :=
  if d = 0 then nan
  else if n = 0 then fin 0
  else
    let a := n.natAbs
    let k : Int := binade a d - 23
    let m := round_half_even (a * 2 ^ (-k).toNat) (d * 2 ^ k.toNat)
    if 2 ^ 128 ≤ m * 2 ^ k.toNat then (if n < 0 then ninf else pinf)
    else fin (mkRat (n.sign * ((m * 2 ^ k.toNat : Nat) : Int)) (2 ^ (-k).toNat))

end F32

/-! ## Data model (`drvassist.h`) -/

/-- The struct `SensorFrame`. -/
structure SensorFrame where
  speed_kmh : F32
  front_dist_m : F32
  lane_offset_m : F32
  long_g : F32
deriving DecidableEq

/-- The struct `DashState`. -/
structure DashState where
  isRecording : Bool
  laneAlert : Bool
  fcwAlert : Bool
deriving DecidableEq

/-- The struct `AssistCalib`. -/
structure AssistCalib where
  rec_on_speed_kmh : F32
  rec_off_speed_kmh : F32
  rec_on_abs_g : F32
  rec_off_abs_g : F32
  lane_on_offset_m : F32
  lane_off_offset_m : F32
  lane_on_speed_kmh : F32
  lane_off_speed_kmh : F32
  fcw_on_dist_m : F32
  fcw_off_dist_m : F32
  fcw_on_speed_kmh : F32
deriving DecidableEq

/-! ## Operations (`drvassist.c`) -/

/-- The function `read_sensors`.  The arguments are the values the four calls
of `rand()` return, in program order; `rand()` returns a non-negative `int`, on
which C `%` is the remainder of naturals.  An `int` operand of a float operation
converts exactly (all of them are below `2^24` in magnitude), and the operation
returns its exact result rounded to binary32. -/
def read_sensors (r0 r1 r2 r3 : Nat) : SensorFrame :=
  { speed_kmh := F32.ofRatio (40 + ((r0 % 50 : Nat) : Int)) 1,
    front_dist_m := F32.ofRatio (5 + ((r1 % 50 : Nat) : Int)) 1,
    lane_offset_m := F32.ofRatio (((r2 % 200 : Nat) : Int) - 100) 100,
    long_g := F32.ofRatio (((r3 % 40 : Nat) : Int) - 20) 10 }

/-- The function `toggle_hysteresis_bool`. -/
def toggle_hysteresis_bool (current on_cond off_cond : Bool) : Bool :=
  if !current && on_cond then true
  else if current && off_cond then false
  else current

/-- The function `write_video_frame` of the source: it ignores its argument and
reports success. -/
def write_video_frame (_recording : Bool) : Bool := true

/-- The local `on_cond` of `update_recording`. -/
def rec_on_cond (s : SensorFrame) (c : AssistCalib) : Bool :=
  F32.gt s.speed_kmh c.rec_on_speed_kmh || F32.gt (F32.fabsf s.long_g) c.rec_on_abs_g

/-- The local `off_cond` of `update_recording`. -/
def rec_off_cond (s : SensorFrame) (c : AssistCalib) : Bool :=
  F32.lt s.speed_kmh c.rec_off_speed_kmh && F32.lt (F32.fabsf s.long_g) c.rec_off_abs_g

/-- The function `update_recording`. -/
def update_recording (s : SensorFrame) (st : DashState) (c : AssistCalib) : DashState :=
  let on_cond := rec_on_cond s c
  let off_cond := rec_off_cond s c
  { st with isRecording := toggle_hysteresis_bool st.isRecording on_cond off_cond }

/-- The local `on_cond` of `update_lane_alert`. -/
def lane_on_cond (s : SensorFrame) (c : AssistCalib) : Bool :=
  F32.gt (F32.fabsf s.lane_offset_m) c.lane_on_offset_m && F32.gt s.speed_kmh c.lane_on_speed_kmh

/-- The local `off_cond` of `update_lane_alert`. -/
def lane_off_cond (s : SensorFrame) (c : AssistCalib) : Bool :=
  F32.lt (F32.fabsf s.lane_offset_m) c.lane_off_offset_m || F32.lt s.speed_kmh c.lane_off_speed_kmh

/-- The function `update_lane_alert`. -/
def update_lane_alert (s : SensorFrame) (st : DashState) (c : AssistCalib) : DashState :=
  let on_cond := lane_on_cond s c
  let off_cond := lane_off_cond s c
  { st with laneAlert := toggle_hysteresis_bool st.laneAlert on_cond off_cond }

/-- The local `on_cond` of `update_fcw_alert`. -/
def fcw_on_cond (s : SensorFrame) (c : AssistCalib) : Bool :=
  F32.lt s.front_dist_m c.fcw_on_dist_m && F32.gt s.speed_kmh c.fcw_on_speed_kmh

/-- The local `off_cond` of `update_fcw_alert`. -/
def fcw_off_cond (s : SensorFrame) (c : AssistCalib) : Bool :=
  F32.gt s.front_dist_m c.fcw_off_dist_m

/-- The function `update_fcw_alert`. -/
def update_fcw_alert (s : SensorFrame) (st : DashState) (c : AssistCalib) : DashState :=
  let on_cond := fcw_on_cond s c
  let off_cond := fcw_off_cond s c
  { st with fcwAlert := toggle_hysteresis_bool st.fcwAlert on_cond off_cond }

/-- What one cycle does to the outside world, in program order. -/
inductive Effect where
  | writeFrame (recording : Bool) : Effect
  | errLog : Effect
  | trace (s : SensorFrame) (recording lane fcw : Bool) : Effect
deriving DecidableEq

/-- The function `process_once`.  The frame `s` is what `read_sensors()` returned
and `wvf` is the output routine called as `write_video_frame`; the result is the
state left in `*st` together with the effects performed. -/
def process_once (s : SensorFrame) (wvf : Bool → Bool) (st : DashState) (c : AssistCalib) :
    DashState × List Effect :=
  let st1 := update_recording s st c
  let st2 := update_lane_alert s st1 c
  let st3 := update_fcw_alert s st2 c
  let ok := wvf st3.isRecording
  let log1 := [Effect.writeFrame st3.isRecording]
  let log2 := if !ok then log1 ++ [Effect.errLog] else log1
  (st3, log2 ++ [Effect.trace s st3.isRecording st3.laneAlert st3.fcwAlert])

/-- A policy applied to a sequence of frames, each with the calibration in
force at that call, one call after the other. -/
def run_policy (f : SensorFrame → DashState → AssistCalib → DashState)
    (inputs : List (SensorFrame × AssistCalib)) (st : DashState) : DashState :=
  inputs.foldl (fun acc x => f x.1 acc x.2) st

/-- A policy applied `n` times with the same frame and calibration. -/
def repeat_policy (f : SensorFrame → DashState → AssistCalib → DashState)
    (s : SensorFrame) (c : AssistCalib) : Nat → DashState → DashState
  | 0, st => st
  | n + 1, st => repeat_policy f s c n (f s st c)

/-- A calibration with a dead zone in every group (all values are exact floats):
recording 60/50 km/h and 0.75/0.25 g, lane 0.5/0.25 m and 50/40 km/h,
forward collision 10/20 m and 40 km/h. -/
def calib_dead_zone : AssistCalib :=
  { rec_on_speed_kmh := F32.fin 60, rec_off_speed_kmh := F32.fin 50,
    rec_on_abs_g := F32.fin (mkRat 3 4), rec_off_abs_g := F32.fin (mkRat 1 4),
    lane_on_offset_m := F32.fin (mkRat 1 2), lane_off_offset_m := F32.fin (mkRat 1 4),
    lane_on_speed_kmh := F32.fin 50, lane_off_speed_kmh := F32.fin 40,
    fcw_on_dist_m := F32.fin 10, fcw_off_dist_m := F32.fin 20,
    fcw_on_speed_kmh := F32.fin 40 }

/-- A frame inside every dead zone of `calib_dead_zone`: 55 km/h, 15 m ahead,
0.375 m to the left, braking at 0.5 g. -/
def frame_hold : SensorFrame :=
  { speed_kmh := F32.fin 55, front_dist_m := F32.fin 15,
    lane_offset_m := F32.fin (mkRat (-3) 8), long_g := F32.fin (mkRat (-1) 2) }

/-- A frame that satisfies every on-condition of `calib_dead_zone`: 65 km/h,
8 m ahead, 0.625 m to the right, accelerating at 1 g. -/
def frame_trigger : SensorFrame :=
  { speed_kmh := F32.fin 65, front_dist_m := F32.fin 8,
    lane_offset_m := F32.fin (mkRat 5 8), long_g := F32.fin 1 }

/-- The initial state: all three flags off. -/
def state_off : DashState :=
  { isRecording := false, laneAlert := false, fcwAlert := false }

/-- A state with all three flags on. -/
def state_on : DashState :=
  { isRecording := true, laneAlert := true, fcwAlert := true }

/-- The calibration of the test `update_recording, speed_and_g_hysteresis`:
`60.0f`, `50.0f`, `0.8f`, `0.3f`, every other field zero. -/
def calib_test_rec : AssistCalib :=
  { rec_on_speed_kmh := F32.ofRatio 60 1, rec_off_speed_kmh := F32.ofRatio 50 1,
    rec_on_abs_g := F32.ofRatio 8 10, rec_off_abs_g := F32.ofRatio 3 10,
    lane_on_offset_m := F32.fin 0, lane_off_offset_m := F32.fin 0,
    lane_on_speed_kmh := F32.fin 0, lane_off_speed_kmh := F32.fin 0,
    fcw_on_dist_m := F32.fin 0, fcw_off_dist_m := F32.fin 0,
    fcw_on_speed_kmh := F32.fin 0 }

/-- The calibration of the test `update_lane_alert, lane_hysteresis`:
`0.5f`, `0.2f`, `50.0f`, `40.0f`, every other field zero. -/
def calib_test_lane : AssistCalib :=
  { rec_on_speed_kmh := F32.fin 0, rec_off_speed_kmh := F32.fin 0,
    rec_on_abs_g := F32.fin 0, rec_off_abs_g := F32.fin 0,
    lane_on_offset_m := F32.ofRatio 5 10, lane_off_offset_m := F32.ofRatio 2 10,
    lane_on_speed_kmh := F32.ofRatio 50 1, lane_off_speed_kmh := F32.ofRatio 40 1,
    fcw_on_dist_m := F32.fin 0, fcw_off_dist_m := F32.fin 0,
    fcw_on_speed_kmh := F32.fin 0 }

/-- The calibration of the test `update_fcw_alert, fcw_hysteresis`:
`10.0f`, `20.0f`, `40.0f`, every other field zero. -/
def calib_test_fcw : AssistCalib :=
  { rec_on_speed_kmh := F32.fin 0, rec_off_speed_kmh := F32.fin 0,
    rec_on_abs_g := F32.fin 0, rec_off_abs_g := F32.fin 0,
    lane_on_offset_m := F32.fin 0, lane_off_offset_m := F32.fin 0,
    lane_on_speed_kmh := F32.fin 0, lane_off_speed_kmh := F32.fin 0,
    fcw_on_dist_m := F32.ofRatio 10 1, fcw_off_dist_m := F32.ofRatio 20 1,
    fcw_on_speed_kmh := F32.ofRatio 40 1 }

/-- A frame of the recording test: `SensorFrame s = {0}` with `speed_kmh` set to
the integer `v` and `long_g` to `0.1f`. -/
def frame_test_rec (v : Int) : SensorFrame :=
  { speed_kmh := F32.ofRatio v 1, front_dist_m := F32.fin 0,
    lane_offset_m := F32.fin 0, long_g := F32.ofRatio 1 10 }

/-- A frame of the lane test: `SensorFrame s = {0}` with `speed_kmh` set to the
integer `v` and `lane_offset_m` to the literal `o / 10`. -/
def frame_test_lane (v : Int) (o : Int) : SensorFrame :=
  { speed_kmh := F32.ofRatio v 1, front_dist_m := F32.fin 0,
    lane_offset_m := F32.ofRatio o 10, long_g := F32.fin 0 }

/-- A frame of the forward-collision test: `SensorFrame s = {0}` with
`front_dist_m` set to the integer `d` and `speed_kmh` to the integer `v`. -/
def frame_test_fcw (d : Int) (v : Int) : SensorFrame :=
  { speed_kmh := F32.ofRatio v 1, front_dist_m := F32.ofRatio d 1,
    lane_offset_m := F32.fin 0, long_g := F32.fin 0 }

/-- A forward-collision calibration without a dead zone: on-distance 20 m above
the off-distance 10 m, on-speed 40 km/h; every other field zero. -/
def calib_chatter : AssistCalib :=
  { rec_on_speed_kmh := F32.fin 0, rec_off_speed_kmh := F32.fin 0,
    rec_on_abs_g := F32.fin 0, rec_off_abs_g := F32.fin 0,
    lane_on_offset_m := F32.fin 0, lane_off_offset_m := F32.fin 0,
    lane_on_speed_kmh := F32.fin 0, lane_off_speed_kmh := F32.fin 0,
    fcw_on_dist_m := F32.fin 20, fcw_off_dist_m := F32.fin 10,
    fcw_on_speed_kmh := F32.fin 40 }

/-- A frame between the two distances of `calib_chatter`: 15 m ahead at 50 km/h. -/
def frame_chatter : SensorFrame :=
  { speed_kmh := F32.fin 50, front_dist_m := F32.fin 15,
    lane_offset_m := F32.fin 0, long_g := F32.fin 0 }

/-! ## The toggle -/

/-- C1: `toggle_hysteresis_bool` follows its three-case contract on all eight
inputs: from OFF an on-condition gives `true` whatever the off-condition, from
ON an off-condition gives `false` whatever the on-condition, every remaining
input returns `current`; with both conditions true the current state decides. -/
theorem toggle_contract :
    (∀ off_c, toggle_hysteresis_bool false true off_c = true) ∧
    (∀ on_c, toggle_hysteresis_bool true on_c true = false) ∧
    (∀ current on_c off_c, ¬ (current = false ∧ on_c = true) → ¬ (current = true ∧ off_c = true) →
      toggle_hysteresis_bool current on_c off_c = current) ∧
    (∀ current, toggle_hysteresis_bool current false false = current) ∧
    toggle_hysteresis_bool true true true = false ∧
    toggle_hysteresis_bool false true true = true := by
  decide

/-! ## The three policies -/

/-- C2: `update_recording` sets `isRecording` to the toggle of its old value with
on-condition `speed > rec_on_speed || |g| > rec_on_abs_g` and off-condition
`speed < rec_off_speed && |g| < rec_off_abs_g`; from OFF the flag becomes true
exactly when speed or |g| exceeds its on-threshold, from ON it becomes false
exactly when speed and |g| are both below their off-thresholds. -/
theorem update_recording_spec (s : SensorFrame) (st : DashState) (c : AssistCalib) :
    (update_recording s st c).isRecording =
      toggle_hysteresis_bool st.isRecording
        (F32.gt s.speed_kmh c.rec_on_speed_kmh || F32.gt (F32.fabsf s.long_g) c.rec_on_abs_g)
        (F32.lt s.speed_kmh c.rec_off_speed_kmh && F32.lt (F32.fabsf s.long_g) c.rec_off_abs_g) ∧
    (st.isRecording = false →
      ((update_recording s st c).isRecording = true ↔
        (F32.gt s.speed_kmh c.rec_on_speed_kmh = true ∨
          F32.gt (F32.fabsf s.long_g) c.rec_on_abs_g = true))) ∧
    (st.isRecording = true →
      ((update_recording s st c).isRecording = false ↔
        (F32.lt s.speed_kmh c.rec_off_speed_kmh = true ∧
          F32.lt (F32.fabsf s.long_g) c.rec_off_abs_g = true))) := by
  refine ⟨rfl, ?_, ?_⟩ <;> intro h <;>
    simp [update_recording, rec_on_cond, rec_off_cond, toggle_hysteresis_bool, h]

/-- C3: `update_lane_alert` sets `laneAlert` to the toggle of its old value with
on-condition `|offset| > lane_on_offset && speed > lane_on_speed` and
off-condition `|offset| < lane_off_offset || speed < lane_off_speed`; from OFF
the alert is raised exactly when the car is both off-centre and fast enough,
from ON it is cleared exactly when the car re-centres or slows down. -/
theorem update_lane_alert_spec (s : SensorFrame) (st : DashState) (c : AssistCalib) :
    (update_lane_alert s st c).laneAlert =
      toggle_hysteresis_bool st.laneAlert
        (F32.gt (F32.fabsf s.lane_offset_m) c.lane_on_offset_m &&
          F32.gt s.speed_kmh c.lane_on_speed_kmh)
        (F32.lt (F32.fabsf s.lane_offset_m) c.lane_off_offset_m ||
          F32.lt s.speed_kmh c.lane_off_speed_kmh) ∧
    (st.laneAlert = false →
      ((update_lane_alert s st c).laneAlert = true ↔
        (F32.gt (F32.fabsf s.lane_offset_m) c.lane_on_offset_m = true ∧
          F32.gt s.speed_kmh c.lane_on_speed_kmh = true))) ∧
    (st.laneAlert = true →
      ((update_lane_alert s st c).laneAlert = false ↔
        (F32.lt (F32.fabsf s.lane_offset_m) c.lane_off_offset_m = true ∨
          F32.lt s.speed_kmh c.lane_off_speed_kmh = true))) := by
  refine ⟨rfl, ?_, ?_⟩ <;> intro h
  · simp [update_lane_alert, lane_on_cond, lane_off_cond, toggle_hysteresis_bool, h]
  · cases h1 : F32.lt (F32.fabsf s.lane_offset_m) c.lane_off_offset_m <;>
      simp [update_lane_alert, lane_on_cond, lane_off_cond, toggle_hysteresis_bool, h, h1]

/-- C4: `update_fcw_alert` sets `fcwAlert` to the toggle of its old value with
on-condition `dist < fcw_on_dist && speed > fcw_on_speed` and off-condition
`dist > fcw_off_dist`. -/
theorem update_fcw_alert_spec (s : SensorFrame) (st : DashState) (c : AssistCalib) :
    (update_fcw_alert s st c).fcwAlert =
      toggle_hysteresis_bool st.fcwAlert
        (F32.lt s.front_dist_m c.fcw_on_dist_m && F32.gt s.speed_kmh c.fcw_on_speed_kmh)
        (F32.gt s.front_dist_m c.fcw_off_dist_m) := by
  rfl

/-! ## Independence of the three flags -/

/-- The flags a run of `update_recording` does not own keep their values. -/
lemma run_recording_frame (inputs : List (SensorFrame × AssistCalib)) (st : DashState) :
    (run_policy update_recording inputs st).laneAlert = st.laneAlert ∧
    (run_policy update_recording inputs st).fcwAlert = st.fcwAlert := by
  induction inputs generalizing st with
  | nil => exact ⟨rfl, rfl⟩
  | cons x xs ih =>
    have h := ih (update_recording x.1 st x.2)
    simpa [run_policy, update_recording] using h

/-- The flags a run of `update_lane_alert` does not own keep their values. -/
lemma run_lane_frame (inputs : List (SensorFrame × AssistCalib)) (st : DashState) :
    (run_policy update_lane_alert inputs st).isRecording = st.isRecording ∧
    (run_policy update_lane_alert inputs st).fcwAlert = st.fcwAlert := by
  induction inputs generalizing st with
  | nil => exact ⟨rfl, rfl⟩
  | cons x xs ih =>
    have h := ih (update_lane_alert x.1 st x.2)
    simpa [run_policy, update_lane_alert] using h

/-- The flags a run of `update_fcw_alert` does not own keep their values. -/
lemma run_fcw_frame (inputs : List (SensorFrame × AssistCalib)) (st : DashState) :
    (run_policy update_fcw_alert inputs st).isRecording = st.isRecording ∧
    (run_policy update_fcw_alert inputs st).laneAlert = st.laneAlert := by
  induction inputs generalizing st with
  | nil => exact ⟨rfl, rfl⟩
  | cons x xs ih =>
    have h := ih (update_fcw_alert x.1 st x.2)
    simpa [run_policy, update_fcw_alert] using h

/-- C5: each policy writes only its own flag: one call leaves the other two
flags unchanged, and so does any sequence of calls to one policy, whatever the
frames and calibrations of the sequence. -/
theorem policies_write_own_flag (s : SensorFrame) (st : DashState) (c : AssistCalib)
    (inputs : List (SensorFrame × AssistCalib)) :
    ((update_recording s st c).laneAlert = st.laneAlert ∧
      (update_recording s st c).fcwAlert = st.fcwAlert) ∧
    ((update_lane_alert s st c).isRecording = st.isRecording ∧
      (update_lane_alert s st c).fcwAlert = st.fcwAlert) ∧
    ((update_fcw_alert s st c).isRecording = st.isRecording ∧
      (update_fcw_alert s st c).laneAlert = st.laneAlert) ∧
    ((run_policy update_recording inputs st).laneAlert = st.laneAlert ∧
      (run_policy update_recording inputs st).fcwAlert = st.fcwAlert) ∧
    ((run_policy update_lane_alert inputs st).isRecording = st.isRecording ∧
      (run_policy update_lane_alert inputs st).fcwAlert = st.fcwAlert) ∧
    ((run_policy update_fcw_alert inputs st).isRecording = st.isRecording ∧
      (run_policy update_fcw_alert inputs st).laneAlert = st.laneAlert) :=
  ⟨⟨rfl, rfl⟩, ⟨rfl, rfl⟩, ⟨rfl, rfl⟩, run_recording_frame inputs st,
    run_lane_frame inputs st, run_fcw_frame inputs st⟩

/-- C6: no policy reads another policy's flag: two states that agree on the
flag a policy owns get the same new value of that flag from the policy, for
the same frame and calibration. -/
theorem policies_read_own_flag (s : SensorFrame) (c : AssistCalib) (st1 st2 : DashState) :
    (st1.isRecording = st2.isRecording →
      (update_recording s st1 c).isRecording = (update_recording s st2 c).isRecording) ∧
    (st1.laneAlert = st2.laneAlert →
      (update_lane_alert s st1 c).laneAlert = (update_lane_alert s st2 c).laneAlert) ∧
    (st1.fcwAlert = st2.fcwAlert →
      (update_fcw_alert s st1 c).fcwAlert = (update_fcw_alert s st2 c).fcwAlert) := by
  refine ⟨?_, ?_, ?_⟩ <;> intro h
  · simp [update_recording, h]
  · simp [update_lane_alert, h]
  · simp [update_fcw_alert, h]

/-- Instance of C6: the all-off state and a state that differs from it in the
two alert flags only get the same new `isRecording` on a triggering frame. -/
theorem policies_read_own_flag_witness :
    state_off.isRecording = (DashState.mk false true true).isRecording ∧
    (update_recording frame_trigger state_off calib_dead_zone).isRecording =
      (update_recording frame_trigger (DashState.mk false true true) calib_dead_zone).isRecording :=
  ⟨rfl, (policies_read_own_flag frame_trigger calib_dead_zone state_off
    (DashState.mk false true true)).1 rfl⟩

/-- C7: the three policies commute pairwise, and each of the six orders of
running them on a frame gives the state of the order `process_once` uses. -/
theorem policy_order_immaterial (s : SensorFrame) (st : DashState) (c : AssistCalib) :
    (update_lane_alert s (update_recording s st c) c =
      update_recording s (update_lane_alert s st c) c) ∧
    (update_fcw_alert s (update_recording s st c) c =
      update_recording s (update_fcw_alert s st c) c) ∧
    (update_fcw_alert s (update_lane_alert s st c) c =
      update_lane_alert s (update_fcw_alert s st c) c) ∧
    (update_lane_alert s (update_fcw_alert s (update_recording s st c) c) c =
      update_fcw_alert s (update_lane_alert s (update_recording s st c) c) c) ∧
    (update_fcw_alert s (update_recording s (update_lane_alert s st c) c) c =
      update_fcw_alert s (update_lane_alert s (update_recording s st c) c) c) ∧
    (update_recording s (update_fcw_alert s (update_lane_alert s st c) c) c =
      update_fcw_alert s (update_lane_alert s (update_recording s st c) c) c) ∧
    (update_lane_alert s (update_recording s (update_fcw_alert s st c) c) c =
      update_fcw_alert s (update_lane_alert s (update_recording s st c) c) c) ∧
    (update_recording s (update_lane_alert s (update_fcw_alert s st c) c) c =
      update_fcw_alert s (update_lane_alert s (update_recording s st c) c) c) := by
  refine ⟨?_, ?_, ?_, ?_, ?_, ?_, ?_, ?_⟩ <;> rfl

/-! ## One cycle -/

/-- C8: whatever the output routine answers, `process_once` leaves the state
obtained by running the three policies on the acquired frame; the output
routine is called once, with the `isRecording` value of that state, and a
diagnostic follows exactly when it reports failure. -/
theorem process_once_state (s : SensorFrame) (wvf : Bool → Bool) (st : DashState)
    (c : AssistCalib) :
    (process_once s wvf st c).1 =
      update_fcw_alert s (update_lane_alert s (update_recording s st c) c) c ∧
    (∀ wvf2 : Bool → Bool, (process_once s wvf2 st c).1 = (process_once s wvf st c).1) ∧
    (process_once s wvf st c).2 =
      Effect.writeFrame (process_once s wvf st c).1.isRecording ::
        ((if wvf (process_once s wvf st c).1.isRecording then [] else [Effect.errLog]) ++
          [Effect.trace s (process_once s wvf st c).1.isRecording
            (process_once s wvf st c).1.laneAlert (process_once s wvf st c).1.fcwAlert]) ∧
    (process_once s wvf st c).1.isRecording = (update_recording s st c).isRecording := by
  refine ⟨rfl, fun _ => rfl, ?_, rfl⟩
  cases h : wvf (update_fcw_alert s (update_lane_alert s (update_recording s st c) c) c).isRecording <;>
    simp [process_once, h]

/-! ## Hysteresis -/

/-- Float comparison chains do not close: `a < b`, `b <= c` and `c < a` cannot
all hold (a NaN operand makes its comparison false). -/
lemma F32.lt_le_lt_false {a b c : F32} (h1 : F32.lt a b = true) (h2 : F32.le b c = true)
    (h3 : F32.lt c a = true) : False := by
  cases a <;> cases b <;> cases c <;> simp [F32.lt, F32.le] at h1 h2 h3
  linarith

/-- With neither condition true the toggle returns `current`. -/
lemma toggle_hold (current : Bool) : toggle_hysteresis_bool current false false = current := by
  cases current <;> rfl

/-- When the two conditions are not both true, a second toggle with the same
conditions changes nothing. -/
lemma toggle_idem (current on_c off_c : Bool) (h : ¬ (on_c = true ∧ off_c = true)) :
    toggle_hysteresis_bool (toggle_hysteresis_bool current on_c off_c) on_c off_c =
      toggle_hysteresis_bool current on_c off_c := by
  cases current <;> cases on_c <;> cases off_c <;> simp_all [toggle_hysteresis_bool]

/-- A state the policy maps to itself stays put under any number of calls. -/
lemma repeat_policy_fixed (f : SensorFrame → DashState → AssistCalib → DashState)
    (s : SensorFrame) (c : AssistCalib) (st : DashState) (h : f s st c = st) (n : Nat) :
    repeat_policy f s c n st = st := by
  induction n with
  | zero => rfl
  | succ k ih => simpa [repeat_policy, h] using ih

/-- When a second call changes nothing, any positive number of calls equals one call. -/
lemma repeat_policy_idem (f : SensorFrame → DashState → AssistCalib → DashState)
    (s : SensorFrame) (c : AssistCalib) (st : DashState)
    (h : f s (f s st c) c = f s st c) (n : Nat) :
    repeat_policy f s c (n + 1) st = f s st c :=
  repeat_policy_fixed f s c (f s st c) h n

/-- In a recording dead zone the two conditions exclude each other. -/
lemma rec_conds_exclusive (s : SensorFrame) (c : AssistCalib)
    (hv : F32.le c.rec_off_speed_kmh c.rec_on_speed_kmh = true)
    (hg : F32.le c.rec_off_abs_g c.rec_on_abs_g = true) :
    ¬ (rec_on_cond s c = true ∧ rec_off_cond s c = true) := by
  rintro ⟨hon, hoff⟩
  simp only [rec_on_cond, rec_off_cond, F32.gt, Bool.or_eq_true, Bool.and_eq_true] at hon hoff
  rcases hon with h | h
  · exact F32.lt_le_lt_false hoff.1 hv h
  · exact F32.lt_le_lt_false hoff.2 hg h

/-- In a lane dead zone the two conditions exclude each other. -/
lemma lane_conds_exclusive (s : SensorFrame) (c : AssistCalib)
    (ho : F32.le c.lane_off_offset_m c.lane_on_offset_m = true)
    (hv : F32.le c.lane_off_speed_kmh c.lane_on_speed_kmh = true) :
    ¬ (lane_on_cond s c = true ∧ lane_off_cond s c = true) := by
  rintro ⟨hon, hoff⟩
  simp only [lane_on_cond, lane_off_cond, F32.gt, Bool.or_eq_true, Bool.and_eq_true] at hon hoff
  rcases hoff with h | h
  · exact F32.lt_le_lt_false h ho hon.1
  · exact F32.lt_le_lt_false h hv hon.2

/-- In a forward-collision dead zone the two conditions exclude each other. -/
lemma fcw_conds_exclusive (s : SensorFrame) (c : AssistCalib)
    (hd : F32.le c.fcw_on_dist_m c.fcw_off_dist_m = true) :
    ¬ (fcw_on_cond s c = true ∧ fcw_off_cond s c = true) := by
  rintro ⟨hon, hoff⟩
  simp only [fcw_on_cond, fcw_off_cond, F32.gt, Bool.and_eq_true] at hon hoff
  exact F32.lt_le_lt_false hon.1 hd hoff

/-- C9: steady-state hold: for each policy, when the frame satisfies neither the
on-condition nor the off-condition of that policy, `n` calls with that frame
leave the whole state, and so the flag of the policy, at its starting value. -/
theorem steady_state_hold (s : SensorFrame) (c : AssistCalib) (st : DashState) (n : Nat) :
    (rec_on_cond s c = false → rec_off_cond s c = false →
      repeat_policy update_recording s c n st = st ∧
      (repeat_policy update_recording s c n st).isRecording = st.isRecording) ∧
    (lane_on_cond s c = false → lane_off_cond s c = false →
      repeat_policy update_lane_alert s c n st = st ∧
      (repeat_policy update_lane_alert s c n st).laneAlert = st.laneAlert) ∧
    (fcw_on_cond s c = false → fcw_off_cond s c = false →
      repeat_policy update_fcw_alert s c n st = st ∧
      (repeat_policy update_fcw_alert s c n st).fcwAlert = st.fcwAlert) := by
  refine ⟨?_, ?_, ?_⟩ <;> intro hon hoff
  · have h : repeat_policy update_recording s c n st = st :=
      repeat_policy_fixed _ s c st (by simp [update_recording, hon, hoff, toggle_hold]) n
    exact ⟨h, by rw [h]⟩
  · have h : repeat_policy update_lane_alert s c n st = st :=
      repeat_policy_fixed _ s c st (by simp [update_lane_alert, hon, hoff, toggle_hold]) n
    exact ⟨h, by rw [h]⟩
  · have h : repeat_policy update_fcw_alert s c n st = st :=
      repeat_policy_fixed _ s c st (by simp [update_fcw_alert, hon, hoff, toggle_hold]) n
    exact ⟨h, by rw [h]⟩

/-- Instance of C9: `frame_hold` satisfies no condition of `calib_dead_zone`, and
five calls of each policy leave the all-on state as it is. -/
theorem steady_state_hold_witness :
    (rec_on_cond frame_hold calib_dead_zone = false ∧
      rec_off_cond frame_hold calib_dead_zone = false ∧
      repeat_policy update_recording frame_hold calib_dead_zone 5 state_on = state_on) ∧
    (lane_on_cond frame_hold calib_dead_zone = false ∧
      lane_off_cond frame_hold calib_dead_zone = false ∧
      repeat_policy update_lane_alert frame_hold calib_dead_zone 5 state_on = state_on) ∧
    (fcw_on_cond frame_hold calib_dead_zone = false ∧
      fcw_off_cond frame_hold calib_dead_zone = false ∧
      repeat_policy update_fcw_alert frame_hold calib_dead_zone 5 state_on = state_on) :=
  ⟨⟨by decide, by decide,
      ((steady_state_hold frame_hold calib_dead_zone state_on 5).1 (by decide) (by decide)).1⟩,
    ⟨by decide, by decide,
      ((steady_state_hold frame_hold calib_dead_zone state_on 5).2.1 (by decide) (by decide)).1⟩,
    ⟨by decide, by decide,
      ((steady_state_hold frame_hold calib_dead_zone state_on 5).2.2 (by decide) (by decide)).1⟩⟩

/-- C10: a dead zone prevents chatter: for each policy, when the off-thresholds
are at most the on-thresholds (forward collision: on-distance at most
off-distance), the on- and off-condition are never both true, a second call
with the same frame changes nothing, and any positive number of calls with that
frame gives the state of the first call. -/
theorem dead_zone_no_chatter (s : SensorFrame) (c : AssistCalib) (st : DashState) (n : Nat) :
    (F32.le c.rec_off_speed_kmh c.rec_on_speed_kmh = true →
      F32.le c.rec_off_abs_g c.rec_on_abs_g = true →
      ¬ (rec_on_cond s c = true ∧ rec_off_cond s c = true) ∧
      update_recording s (update_recording s st c) c = update_recording s st c ∧
      repeat_policy update_recording s c (n + 1) st = update_recording s st c) ∧
    (F32.le c.lane_off_offset_m c.lane_on_offset_m = true →
      F32.le c.lane_off_speed_kmh c.lane_on_speed_kmh = true →
      ¬ (lane_on_cond s c = true ∧ lane_off_cond s c = true) ∧
      update_lane_alert s (update_lane_alert s st c) c = update_lane_alert s st c ∧
      repeat_policy update_lane_alert s c (n + 1) st = update_lane_alert s st c) ∧
    (F32.le c.fcw_on_dist_m c.fcw_off_dist_m = true →
      ¬ (fcw_on_cond s c = true ∧ fcw_off_cond s c = true) ∧
      update_fcw_alert s (update_fcw_alert s st c) c = update_fcw_alert s st c ∧
      repeat_policy update_fcw_alert s c (n + 1) st = update_fcw_alert s st c) := by
  refine ⟨fun hv hg => ?_, fun ho hv => ?_, fun hd => ?_⟩
  · have hx := rec_conds_exclusive s c hv hg
    have h2 : update_recording s (update_recording s st c) c = update_recording s st c := by
      simp [update_recording, toggle_idem _ _ _ hx]
    exact ⟨hx, h2, repeat_policy_idem _ s c st h2 n⟩
  · have hx := lane_conds_exclusive s c ho hv
    have h2 : update_lane_alert s (update_lane_alert s st c) c = update_lane_alert s st c := by
      simp [update_lane_alert, toggle_idem _ _ _ hx]
    exact ⟨hx, h2, repeat_policy_idem _ s c st h2 n⟩
  · have hx := fcw_conds_exclusive s c hd
    have h2 : update_fcw_alert s (update_fcw_alert s st c) c = update_fcw_alert s st c := by
      simp [update_fcw_alert, toggle_idem _ _ _ hx]
    exact ⟨hx, h2, repeat_policy_idem _ s c st h2 n⟩

/-- Instance of C10: `calib_dead_zone` orders its thresholds, and four calls of
each policy on `frame_trigger` from the all-off state equal one call. -/
theorem dead_zone_no_chatter_witness :
    (F32.le calib_dead_zone.rec_off_speed_kmh calib_dead_zone.rec_on_speed_kmh = true ∧
      F32.le calib_dead_zone.rec_off_abs_g calib_dead_zone.rec_on_abs_g = true ∧
      repeat_policy update_recording frame_trigger calib_dead_zone 4 state_off =
        update_recording frame_trigger state_off calib_dead_zone) ∧
    (F32.le calib_dead_zone.lane_off_offset_m calib_dead_zone.lane_on_offset_m = true ∧
      F32.le calib_dead_zone.lane_off_speed_kmh calib_dead_zone.lane_on_speed_kmh = true ∧
      repeat_policy update_lane_alert frame_trigger calib_dead_zone 4 state_off =
        update_lane_alert frame_trigger state_off calib_dead_zone) ∧
    (F32.le calib_dead_zone.fcw_on_dist_m calib_dead_zone.fcw_off_dist_m = true ∧
      repeat_policy update_fcw_alert frame_trigger calib_dead_zone 4 state_off =
        update_fcw_alert frame_trigger state_off calib_dead_zone) :=
  ⟨⟨by decide, by decide,
      ((dead_zone_no_chatter frame_trigger calib_dead_zone state_off 3).1
        (by decide) (by decide)).2.2⟩,
    ⟨by decide, by decide,
      ((dead_zone_no_chatter frame_trigger calib_dead_zone state_off 3).2.1
        (by decide) (by decide)).2.2⟩,
    ⟨by decide,
      ((dead_zone_no_chatter frame_trigger calib_dead_zone state_off 3).2.2 (by decide)).2.2⟩⟩

/-! ## Hysteresis traces -/

/-- Float `a <= b` and `b < a` exclude each other. -/
lemma F32.le_lt_false {a b : F32} (h1 : F32.le a b = true) (h2 : F32.lt b a = true) :
    False := by
  cases a <;> cases b <;> simp [F32.lt, F32.le] at h1 h2
  linarith

/-- Float `<` is irreflexive, NaN included. -/
lemma F32.lt_irrefl (a : F32) : F32.lt a a = false := by
  cases a <;> simp [F32.lt]

/-- Float `a <= b` and `b < c` give `a < c`. -/
lemma F32.lt_of_le_of_lt {a b c : F32} (h1 : F32.le a b = true) (h2 : F32.lt b c = true) :
    F32.lt a c = true := by
  cases a <;> cases b <;> cases c <;> simp [F32.lt, F32.le] at h1 h2 ⊢
  linarith

/-- Float `a < b` and `b <= c` give `a < c`. -/
lemma F32.lt_of_lt_of_le {a b c : F32} (h1 : F32.lt a b = true) (h2 : F32.le b c = true) :
    F32.lt a c = true := by
  cases a <;> cases b <;> cases c <;> simp [F32.lt, F32.le] at h1 h2 ⊢
  linarith

/-- C11: recording hysteresis trace: with `rec_off_speed <= rec_on_speed`,
`rec_off_abs_g <= rec_on_abs_g` and four frames whose |g| is below
`rec_off_abs_g`, starting from `isRecording = false` the successive calls of
`update_recording` with speeds `v1 < off`, `v2 > on`, `off <= v3 <= on`,
`v4 < off` leave `isRecording` false, true, true, false. -/
theorem recording_trace (c : AssistCalib) (s1 s2 s3 s4 : SensorFrame) (st : DashState)
    (hv : F32.le c.rec_off_speed_kmh c.rec_on_speed_kmh = true)
    (hg : F32.le c.rec_off_abs_g c.rec_on_abs_g = true)
    (hg1 : F32.lt (F32.fabsf s1.long_g) c.rec_off_abs_g = true)
    (_hg2 : F32.lt (F32.fabsf s2.long_g) c.rec_off_abs_g = true)
    (_hg3 : F32.lt (F32.fabsf s3.long_g) c.rec_off_abs_g = true)
    (hg4 : F32.lt (F32.fabsf s4.long_g) c.rec_off_abs_g = true)
    (h0 : st.isRecording = false)
    (h1 : F32.lt s1.speed_kmh c.rec_off_speed_kmh = true)
    (h2 : F32.gt s2.speed_kmh c.rec_on_speed_kmh = true)
    (h3 : F32.le c.rec_off_speed_kmh s3.speed_kmh = true)
    (_h3on : F32.le s3.speed_kmh c.rec_on_speed_kmh = true)
    (h4 : F32.lt s4.speed_kmh c.rec_off_speed_kmh = true) :
    (run_policy update_recording [(s1, c)] st).isRecording = false ∧
    (run_policy update_recording [(s1, c), (s2, c)] st).isRecording = true ∧
    (run_policy update_recording [(s1, c), (s2, c), (s3, c)] st).isRecording = true ∧
    (run_policy update_recording [(s1, c), (s2, c), (s3, c), (s4, c)] st).isRecording
      = false := by
  have on1 : rec_on_cond s1 c = false := by
    cases hc : rec_on_cond s1 c
    · rfl
    · simp only [rec_on_cond, F32.gt, Bool.or_eq_true] at hc
      rcases hc with h | h
      · exact (F32.lt_le_lt_false h1 hv h).elim
      · exact (F32.lt_le_lt_false hg1 hg h).elim
  have on2 : rec_on_cond s2 c = true := by simp [rec_on_cond, h2]
  have off3 : rec_off_cond s3 c = false := by
    cases hc : rec_off_cond s3 c
    · rfl
    · simp only [rec_off_cond, Bool.and_eq_true] at hc
      exact (F32.le_lt_false h3 hc.1).elim
  have off4 : rec_off_cond s4 c = true := by simp [rec_off_cond, h4, hg4]
  simp [run_policy, update_recording, toggle_hysteresis_bool, h0, on1, on2, off3, off4]

/-- Instance of C11: the test `update_recording, speed_and_g_hysteresis`:
calibration 60/50 km/h and `0.8f`/`0.3f`, frames (40, `0.1f`), (65, `0.1f`),
(55, `0.1f`), (40, `0.1f`) from the all-off state. -/
theorem recording_trace_witness :
    (run_policy update_recording [(frame_test_rec 40, calib_test_rec)] state_off).isRecording
      = false ∧
    (run_policy update_recording
      [(frame_test_rec 40, calib_test_rec), (frame_test_rec 65, calib_test_rec)]
      state_off).isRecording = true ∧
    (run_policy update_recording
      [(frame_test_rec 40, calib_test_rec), (frame_test_rec 65, calib_test_rec),
        (frame_test_rec 55, calib_test_rec)] state_off).isRecording = true ∧
    (run_policy update_recording
      [(frame_test_rec 40, calib_test_rec), (frame_test_rec 65, calib_test_rec),
        (frame_test_rec 55, calib_test_rec), (frame_test_rec 40, calib_test_rec)]
      state_off).isRecording = false :=
  recording_trace calib_test_rec (frame_test_rec 40) (frame_test_rec 65) (frame_test_rec 55)
    (frame_test_rec 40) state_off (by decide) (by decide) (by decide) (by decide) (by decide)
    (by decide) rfl (by decide) (by decide) (by decide) (by decide) (by decide)

/-- C12: lane-departure hysteresis trace: with `lane_off_offset <= lane_on_offset`
and `lane_off_speed <= lane_on_speed`, starting from `laneAlert = false` the
successive calls of `update_lane_alert` with (1) |offset| and speed below the
off-thresholds, (2) both above the on-thresholds, (3) both at least the
off-thresholds and not both above the on-thresholds, (4) |offset| or speed
below its off-threshold, leave `laneAlert` false, true, true, false. -/
theorem lane_trace (c : AssistCalib) (s1 s2 s3 s4 : SensorFrame) (st : DashState)
    (ho : F32.le c.lane_off_offset_m c.lane_on_offset_m = true)
    (_hv : F32.le c.lane_off_speed_kmh c.lane_on_speed_kmh = true)
    (h0 : st.laneAlert = false)
    (h1o : F32.lt (F32.fabsf s1.lane_offset_m) c.lane_off_offset_m = true)
    (_h1v : F32.lt s1.speed_kmh c.lane_off_speed_kmh = true)
    (h2o : F32.gt (F32.fabsf s2.lane_offset_m) c.lane_on_offset_m = true)
    (h2v : F32.gt s2.speed_kmh c.lane_on_speed_kmh = true)
    (h3o : F32.le c.lane_off_offset_m (F32.fabsf s3.lane_offset_m) = true)
    (h3v : F32.le c.lane_off_speed_kmh s3.speed_kmh = true)
    (_h3on : ¬ (F32.gt (F32.fabsf s3.lane_offset_m) c.lane_on_offset_m = true ∧
      F32.gt s3.speed_kmh c.lane_on_speed_kmh = true))
    (h4 : F32.lt (F32.fabsf s4.lane_offset_m) c.lane_off_offset_m = true ∨
      F32.lt s4.speed_kmh c.lane_off_speed_kmh = true) :
    (run_policy update_lane_alert [(s1, c)] st).laneAlert = false ∧
    (run_policy update_lane_alert [(s1, c), (s2, c)] st).laneAlert = true ∧
    (run_policy update_lane_alert [(s1, c), (s2, c), (s3, c)] st).laneAlert = true ∧
    (run_policy update_lane_alert [(s1, c), (s2, c), (s3, c), (s4, c)] st).laneAlert
      = false := by
  have on1 : lane_on_cond s1 c = false := by
    cases hc : lane_on_cond s1 c
    · rfl
    · simp only [lane_on_cond, F32.gt, Bool.and_eq_true] at hc
      exact (F32.lt_le_lt_false h1o ho hc.1).elim
  have on2 : lane_on_cond s2 c = true := by simp [lane_on_cond, h2o, h2v]
  have off3 : lane_off_cond s3 c = false := by
    cases hc : lane_off_cond s3 c
    · rfl
    · simp only [lane_off_cond, Bool.or_eq_true] at hc
      rcases hc with h | h
      · exact (F32.le_lt_false h3o h).elim
      · exact (F32.le_lt_false h3v h).elim
  have off4 : lane_off_cond s4 c = true := by
    simp only [lane_off_cond, Bool.or_eq_true]
    exact h4
  simp [run_policy, update_lane_alert, toggle_hysteresis_bool, h0, on1, on2, off3, off4]

/-- Instance of C12: the test `update_lane_alert, lane_hysteresis`: calibration
`0.5f`/`0.2f` and 50/40 km/h, frames (30, `0.1f`), (60, `0.6f`), (45, `0.3f`),
(35, `0.1f`) from the all-off state. -/
theorem lane_trace_witness :
    (run_policy update_lane_alert [(frame_test_lane 30 1, calib_test_lane)]
      state_off).laneAlert = false ∧
    (run_policy update_lane_alert
      [(frame_test_lane 30 1, calib_test_lane), (frame_test_lane 60 6, calib_test_lane)]
      state_off).laneAlert = true ∧
    (run_policy update_lane_alert
      [(frame_test_lane 30 1, calib_test_lane), (frame_test_lane 60 6, calib_test_lane),
        (frame_test_lane 45 3, calib_test_lane)] state_off).laneAlert = true ∧
    (run_policy update_lane_alert
      [(frame_test_lane 30 1, calib_test_lane), (frame_test_lane 60 6, calib_test_lane),
        (frame_test_lane 45 3, calib_test_lane), (frame_test_lane 35 1, calib_test_lane)]
      state_off).laneAlert = false :=
  lane_trace calib_test_lane (frame_test_lane 30 1) (frame_test_lane 60 6)
    (frame_test_lane 45 3) (frame_test_lane 35 1) state_off (by decide) (by decide) rfl
    (by decide) (by decide) (by decide) (by decide) (by decide) (by decide) (by decide)
    (by decide)

/-- C13: forward-collision hysteresis trace: with `fcw_on_dist <= fcw_off_dist`,
starting from `fcwAlert = false` the successive calls of `update_fcw_alert` with
(1) distance at least the on-distance, (2) distance below the on-distance and
speed above the on-speed, (3) distance at most the off-distance, (4) distance
above the off-distance, leave `fcwAlert` false, true, true, false. -/
theorem fcw_trace (c : AssistCalib) (s1 s2 s3 s4 : SensorFrame) (st : DashState)
    (_hd : F32.le c.fcw_on_dist_m c.fcw_off_dist_m = true)
    (h0 : st.fcwAlert = false)
    (h1 : F32.le c.fcw_on_dist_m s1.front_dist_m = true)
    (h2d : F32.lt s2.front_dist_m c.fcw_on_dist_m = true)
    (h2v : F32.gt s2.speed_kmh c.fcw_on_speed_kmh = true)
    (h3 : F32.le s3.front_dist_m c.fcw_off_dist_m = true)
    (h4 : F32.gt s4.front_dist_m c.fcw_off_dist_m = true) :
    (run_policy update_fcw_alert [(s1, c)] st).fcwAlert = false ∧
    (run_policy update_fcw_alert [(s1, c), (s2, c)] st).fcwAlert = true ∧
    (run_policy update_fcw_alert [(s1, c), (s2, c), (s3, c)] st).fcwAlert = true ∧
    (run_policy update_fcw_alert [(s1, c), (s2, c), (s3, c), (s4, c)] st).fcwAlert
      = false := by
  have on1 : fcw_on_cond s1 c = false := by
    cases hc : fcw_on_cond s1 c
    · rfl
    · simp only [fcw_on_cond, Bool.and_eq_true] at hc
      exact (F32.le_lt_false h1 hc.1).elim
  have on2 : fcw_on_cond s2 c = true := by simp [fcw_on_cond, h2d, h2v]
  have off3 : fcw_off_cond s3 c = false := by
    cases hc : fcw_off_cond s3 c
    · rfl
    · simp only [fcw_off_cond, F32.gt] at hc
      exact (F32.le_lt_false h3 hc).elim
  have off4 : fcw_off_cond s4 c = true := by simp [fcw_off_cond, h4]
  simp [run_policy, update_fcw_alert, toggle_hysteresis_bool, h0, on1, on2, off3, off4]

/-- Instance of C13: the test `update_fcw_alert, fcw_hysteresis`: calibration
10/20 m and 40 km/h, frames (30 m, 60), (8 m, 50), (15 m, 50), (25 m, 50) from
the all-off state. -/
theorem fcw_trace_witness :
    (run_policy update_fcw_alert [(frame_test_fcw 30 60, calib_test_fcw)]
      state_off).fcwAlert = false ∧
    (run_policy update_fcw_alert
      [(frame_test_fcw 30 60, calib_test_fcw), (frame_test_fcw 8 50, calib_test_fcw)]
      state_off).fcwAlert = true ∧
    (run_policy update_fcw_alert
      [(frame_test_fcw 30 60, calib_test_fcw), (frame_test_fcw 8 50, calib_test_fcw),
        (frame_test_fcw 15 50, calib_test_fcw)] state_off).fcwAlert = true ∧
    (run_policy update_fcw_alert
      [(frame_test_fcw 30 60, calib_test_fcw), (frame_test_fcw 8 50, calib_test_fcw),
        (frame_test_fcw 15 50, calib_test_fcw), (frame_test_fcw 25 50, calib_test_fcw)]
      state_off).fcwAlert = false :=
  fcw_trace calib_test_fcw (frame_test_fcw 30 60) (frame_test_fcw 8 50)
    (frame_test_fcw 15 50) (frame_test_fcw 25 50) state_off (by decide) rfl (by decide)
    (by decide) (by decide) (by decide) (by decide)

/-! ## Forward collision: speed and distance -/

/-- C14: the forward-collision off-condition ignores speed: an active alert is
cleared by every frame with distance above `fcw_off_dist`, whatever speed is put
in the frame, and two frames with the same distance leave an active alert (and
the whole state) the same, whatever their speeds. -/
theorem fcw_off_ignores_speed (c : AssistCalib) (s s2 : SensorFrame) (st : DashState)
    (v : F32) :
    (st.fcwAlert = true → F32.gt s.front_dist_m c.fcw_off_dist_m = true →
      (update_fcw_alert { s with speed_kmh := v } st c).fcwAlert = false) ∧
    (st.fcwAlert = true → s.front_dist_m = s2.front_dist_m →
      update_fcw_alert s st c = update_fcw_alert s2 st c ∧
      (update_fcw_alert s st c).fcwAlert = (update_fcw_alert s2 st c).fcwAlert) := by
  refine ⟨fun h hd => ?_, fun h hd => ?_⟩
  · simp [update_fcw_alert, fcw_off_cond, toggle_hysteresis_bool, h, hd]
  · have hs : update_fcw_alert s st c = update_fcw_alert s2 st c := by
      simp [update_fcw_alert, fcw_off_cond, toggle_hysteresis_bool, h, hd]
    exact ⟨hs, by rw [hs]⟩

/-- Instance of C14: under the test calibration an active alert is cleared at
25 m whether the speed is 50 km/h or NaN, and at 15 m it is kept at 50 km/h as
at 0 km/h. -/
theorem fcw_off_ignores_speed_witness :
    (update_fcw_alert { frame_test_fcw 25 50 with speed_kmh := F32.nan } state_on
      calib_test_fcw).fcwAlert = false ∧
    (update_fcw_alert (frame_test_fcw 15 50) state_on calib_test_fcw).fcwAlert =
      (update_fcw_alert (frame_test_fcw 15 0) state_on calib_test_fcw).fcwAlert :=
  ⟨(fcw_off_ignores_speed calib_test_fcw (frame_test_fcw 25 50) (frame_test_fcw 25 50)
      state_on F32.nan).1 rfl (by decide),
    ((fcw_off_ignores_speed calib_test_fcw (frame_test_fcw 15 50) (frame_test_fcw 15 0)
      state_on F32.nan).2 rfl (by decide)).2⟩

/-- C18: under `fcw_on_dist <= fcw_off_dist` the frame forces the alert whenever
a condition holds, whatever the prior state: distance below the on-distance and
speed above the on-speed give `fcwAlert = true`, distance above the
off-distance gives `fcwAlert = false`. -/
theorem fcw_forced (s : SensorFrame) (c : AssistCalib) (st : DashState)
    (hd : F32.le c.fcw_on_dist_m c.fcw_off_dist_m = true) :
    (F32.lt s.front_dist_m c.fcw_on_dist_m = true →
      F32.gt s.speed_kmh c.fcw_on_speed_kmh = true →
      (update_fcw_alert s st c).fcwAlert = true) ∧
    (F32.gt s.front_dist_m c.fcw_off_dist_m = true →
      (update_fcw_alert s st c).fcwAlert = false) := by
  refine ⟨fun h1 h2 => ?_, fun h3 => ?_⟩
  · have hoff : fcw_off_cond s c = false := by
      cases hc : fcw_off_cond s c
      · rfl
      · exact (F32.lt_le_lt_false h1 hd hc).elim
    cases hst : st.fcwAlert <;>
      simp [update_fcw_alert, fcw_on_cond, toggle_hysteresis_bool, h1, h2, hoff, hst]
  · have hon : fcw_on_cond s c = false := by
      cases hc : fcw_on_cond s c
      · rfl
      · simp only [fcw_on_cond, Bool.and_eq_true] at hc
        exact (F32.lt_le_lt_false hc.1 hd h3).elim
    cases hst : st.fcwAlert <;>
      simp [update_fcw_alert, fcw_off_cond, toggle_hysteresis_bool, h3, hon, hst]

/-- Instance of C18: under the test calibration (10 m <= 20 m) the frame
(8 m, 50 km/h) keeps an active alert on and the frame (25 m, 50 km/h) leaves an
inactive alert off. -/
theorem fcw_forced_witness :
    (update_fcw_alert (frame_test_fcw 8 50) state_on calib_test_fcw).fcwAlert = true ∧
    (update_fcw_alert (frame_test_fcw 25 50) state_off calib_test_fcw).fcwAlert = false :=
  ⟨(fcw_forced (frame_test_fcw 8 50) calib_test_fcw state_on (by decide)).1
      (by decide) (by decide),
    (fcw_forced (frame_test_fcw 25 50) calib_test_fcw state_off (by decide)).2 (by decide)⟩

/-- One more call of a repeated policy is a call on the state reached so far. -/
lemma repeat_policy_succ (f : SensorFrame → DashState → AssistCalib → DashState)
    (s : SensorFrame) (c : AssistCalib) (n : Nat) (st : DashState) :
    repeat_policy f s c (n + 1) st = f s (repeat_policy f s c n st) c := by
  induction n generalizing st with
  | zero => rfl
  | succ k ih =>
    show repeat_policy f s c (k + 1) (f s st c) = f s (repeat_policy f s c (k + 1) st) c
    rw [ih (f s st c)]
    rfl

/-- On `frame_chatter` under `calib_chatter` every call flips the flag. -/
lemma chatter_flip (st : DashState) :
    (update_fcw_alert frame_chatter st calib_chatter).fcwAlert = !st.fcwAlert := by
  have hon : fcw_on_cond frame_chatter calib_chatter = true := by decide
  have hoff : fcw_off_cond frame_chatter calib_chatter = true := by decide
  cases hst : st.fcwAlert <;> simp [update_fcw_alert, toggle_hysteresis_bool, hon, hoff, hst]

/-- C19: chatter without a dead zone: `calib_chatter` has its on-distance 20 above
its off-distance 10, the constant frame `frame_chatter` (15 m, 50 km/h)
satisfies both conditions, every call of `update_fcw_alert` with it flips
`fcwAlert`, and from the all-off state the flag after `n` calls is true exactly
for odd `n`, so it differs after every further call. -/
theorem fcw_chatter :
    F32.gt calib_chatter.fcw_on_dist_m calib_chatter.fcw_off_dist_m = true ∧
    fcw_on_cond frame_chatter calib_chatter = true ∧
    fcw_off_cond frame_chatter calib_chatter = true ∧
    (∀ st, (update_fcw_alert frame_chatter st calib_chatter).fcwAlert = !st.fcwAlert) ∧
    (∀ n, (repeat_policy update_fcw_alert frame_chatter calib_chatter n state_off).fcwAlert
      = decide (n % 2 = 1)) ∧
    (∀ n st,
      (repeat_policy update_fcw_alert frame_chatter calib_chatter (n + 1) st).fcwAlert ≠
        (repeat_policy update_fcw_alert frame_chatter calib_chatter n st).fcwAlert) := by
  refine ⟨by decide, by decide, by decide, chatter_flip, ?_, ?_⟩
  · intro n
    induction n with
    | zero => rfl
    | succ k ih =>
      rw [repeat_policy_succ, chatter_flip, ih]
      rcases Nat.mod_two_eq_zero_or_one k with h | h <;> simp [Nat.succ_mod_two_eq_one_iff, h]
  · intro n st
    rw [repeat_policy_succ, chatter_flip]
    cases (repeat_policy update_fcw_alert frame_chatter calib_chatter n st).fcwAlert <;> simp

/-- C20: the forward-collision alert is monotone in distance: for two frames
with the same speed and distances `d1 <= d2`, any calibration and any prior
state, an alert left active at `d2` is left active at `d1`. -/
theorem fcw_monotone_distance (c : AssistCalib) (st : DashState) (s1 s2 : SensorFrame)
    (hv : s1.speed_kmh = s2.speed_kmh)
    (hd : F32.le s1.front_dist_m s2.front_dist_m = true)
    (h2 : (update_fcw_alert s2 st c).fcwAlert = true) :
    (update_fcw_alert s1 st c).fcwAlert = true := by
  cases hst : st.fcwAlert
  · simp only [update_fcw_alert, fcw_on_cond, toggle_hysteresis_bool, hst] at h2 ⊢
    simp only [Bool.not_false, Bool.true_and, Bool.and_eq_true, ite_eq_left_iff,
      Bool.false_and, Bool.false_eq_true, if_false, not_and, Bool.not_eq_true,
      imp_false, not_forall, exists_prop] at h2 ⊢
    have hlt : F32.lt s1.front_dist_m c.fcw_on_dist_m = true := F32.lt_of_le_of_lt hd h2.1
    refine ⟨hlt, ?_⟩
    rw [hv]
    simpa using h2.2
  · have hoff2 : fcw_off_cond s2 c = false := by
      cases hc : fcw_off_cond s2 c
      · rfl
      · simp [update_fcw_alert, toggle_hysteresis_bool, hst, hc] at h2
    have hoff1 : fcw_off_cond s1 c = false := by
      cases hc : fcw_off_cond s1 c
      · rfl
      · have h := F32.lt_of_lt_of_le (show F32.lt c.fcw_off_dist_m s1.front_dist_m = true from hc) hd
        have h' : fcw_off_cond s2 c = true := h
        rw [hoff2] at h'
        exact absurd h' (by decide)
    simp [update_fcw_alert, toggle_hysteresis_bool, hst, hoff1]

/-- Instance of C20: under `calib_chatter`, which is not well ordered, an
inactive alert raised at 15 m and 50 km/h is also raised at 8 m and 50 km/h. -/
theorem fcw_monotone_distance_witness :
    (update_fcw_alert (frame_test_fcw 8 50) state_off calib_chatter).fcwAlert = true :=
  fcw_monotone_distance calib_chatter state_off (frame_test_fcw 8 50) frame_chatter
    (by decide) (by decide) (by decide)

/-! ## Boundaries and signs -/

/-- C15: comparisons are strict, so boundary-equal values keep the state: for
each policy, a frame whose quantities equal the on-thresholds leaves an
inactive flag inactive, and a frame whose quantities equal the off-thresholds
leaves an active flag active; the whole state is unchanged. -/
theorem boundary_holds (s : SensorFrame) (c : AssistCalib) (st : DashState) :
    (s.speed_kmh = c.rec_on_speed_kmh → F32.fabsf s.long_g = c.rec_on_abs_g →
      st.isRecording = false →
      (update_recording s st c).isRecording = false ∧ update_recording s st c = st) ∧
    (s.speed_kmh = c.rec_off_speed_kmh → F32.fabsf s.long_g = c.rec_off_abs_g →
      st.isRecording = true →
      (update_recording s st c).isRecording = true ∧ update_recording s st c = st) ∧
    (F32.fabsf s.lane_offset_m = c.lane_on_offset_m → s.speed_kmh = c.lane_on_speed_kmh →
      st.laneAlert = false →
      (update_lane_alert s st c).laneAlert = false ∧ update_lane_alert s st c = st) ∧
    (F32.fabsf s.lane_offset_m = c.lane_off_offset_m → s.speed_kmh = c.lane_off_speed_kmh →
      st.laneAlert = true →
      (update_lane_alert s st c).laneAlert = true ∧ update_lane_alert s st c = st) ∧
    (s.front_dist_m = c.fcw_on_dist_m → s.speed_kmh = c.fcw_on_speed_kmh →
      st.fcwAlert = false →
      (update_fcw_alert s st c).fcwAlert = false ∧ update_fcw_alert s st c = st) ∧
    (s.front_dist_m = c.fcw_off_dist_m →
      st.fcwAlert = true →
      (update_fcw_alert s st c).fcwAlert = true ∧ update_fcw_alert s st c = st) := by
  refine ⟨fun h1 h2 h => ?_, fun h1 h2 h => ?_, fun h1 h2 h => ?_, fun h1 h2 h => ?_,
    fun h1 h2 h => ?_, fun h1 h => ?_⟩
  · have hs : update_recording s st c = st := by
      cases st
      simp_all [update_recording, rec_on_cond, F32.gt, F32.lt_irrefl, toggle_hysteresis_bool]
    exact ⟨by rw [hs]; exact h, hs⟩
  · have hs : update_recording s st c = st := by
      cases st
      simp_all [update_recording, rec_off_cond, F32.lt_irrefl, toggle_hysteresis_bool]
    exact ⟨by rw [hs]; exact h, hs⟩
  · have hs : update_lane_alert s st c = st := by
      cases st
      simp_all [update_lane_alert, lane_on_cond, F32.gt, F32.lt_irrefl, toggle_hysteresis_bool]
    exact ⟨by rw [hs]; exact h, hs⟩
  · have hs : update_lane_alert s st c = st := by
      cases st
      simp_all [update_lane_alert, lane_off_cond, F32.lt_irrefl, toggle_hysteresis_bool]
    exact ⟨by rw [hs]; exact h, hs⟩
  · have hs : update_fcw_alert s st c = st := by
      cases st
      simp_all [update_fcw_alert, fcw_on_cond, F32.gt, F32.lt_irrefl, toggle_hysteresis_bool]
    exact ⟨by rw [hs]; exact h, hs⟩
  · have hs : update_fcw_alert s st c = st := by
      cases st
      simp_all [update_fcw_alert, fcw_off_cond, F32.gt, F32.lt_irrefl, toggle_hysteresis_bool]
    exact ⟨by rw [hs]; exact h, hs⟩

/-- Instance of C15: under `calib_dead_zone`, recording stays off at exactly
60 km/h and -0.75 g, and the forward-collision alert stays on at exactly 20 m. -/
theorem boundary_holds_witness :
    (update_recording (SensorFrame.mk (F32.fin 60) (F32.fin 20) (F32.fin 0)
      (F32.fin (mkRat (-3) 4))) state_off calib_dead_zone).isRecording = false ∧
    (update_fcw_alert (SensorFrame.mk (F32.fin 60) (F32.fin 20) (F32.fin 0)
      (F32.fin (mkRat (-3) 4))) state_on calib_dead_zone).fcwAlert = true :=
  ⟨((boundary_holds (SensorFrame.mk (F32.fin 60) (F32.fin 20) (F32.fin 0)
      (F32.fin (mkRat (-3) 4))) calib_dead_zone state_off).1 (by decide) (by decide) rfl).1,
    ((boundary_holds (SensorFrame.mk (F32.fin 60) (F32.fin 20) (F32.fin 0)
      (F32.fin (mkRat (-3) 4))) calib_dead_zone state_on).2.2.2.2.2 (by decide) rfl).1⟩

/-- The function `fabsf` drops the sign. -/
lemma F32.fabsf_neg (a : F32) : F32.fabsf (F32.neg a) = F32.fabsf a := by
  cases a <;> simp [F32.fabsf, F32.neg]

/-- C16: only the magnitude of the signed sensor values matters: negating
`lane_offset_m`, `long_g`, both or neither (`nl`, `ng` say which) changes the
result of none of the three policies, nor the state a whole cycle leaves, nor
the value it passes to the output routine. -/
theorem sign_irrelevant (s : SensorFrame) (st : DashState) (c : AssistCalib)
    (nl ng : Bool) (wvf : Bool → Bool) :
    update_recording
        { s with lane_offset_m := if nl then F32.neg s.lane_offset_m else s.lane_offset_m,
                 long_g := if ng then F32.neg s.long_g else s.long_g } st c
      = update_recording s st c ∧
    update_lane_alert
        { s with lane_offset_m := if nl then F32.neg s.lane_offset_m else s.lane_offset_m,
                 long_g := if ng then F32.neg s.long_g else s.long_g } st c
      = update_lane_alert s st c ∧
    update_fcw_alert
        { s with lane_offset_m := if nl then F32.neg s.lane_offset_m else s.lane_offset_m,
                 long_g := if ng then F32.neg s.long_g else s.long_g } st c
      = update_fcw_alert s st c ∧
    (process_once
        { s with lane_offset_m := if nl then F32.neg s.lane_offset_m else s.lane_offset_m,
                 long_g := if ng then F32.neg s.long_g else s.long_g } wvf st c).1
      = (process_once s wvf st c).1 ∧
    (process_once
        { s with lane_offset_m := if nl then F32.neg s.lane_offset_m else s.lane_offset_m,
                 long_g := if ng then F32.neg s.long_g else s.long_g } wvf st c).2.head?
      = (process_once s wvf st c).2.head? := by
  have hr : ∀ st1, update_recording
      { s with lane_offset_m := if nl then F32.neg s.lane_offset_m else s.lane_offset_m,
               long_g := if ng then F32.neg s.long_g else s.long_g } st1 c
      = update_recording s st1 c := by
    intro st1
    cases ng <;> simp [update_recording, rec_on_cond, rec_off_cond, F32.fabsf_neg]
  have hl : ∀ st1, update_lane_alert
      { s with lane_offset_m := if nl then F32.neg s.lane_offset_m else s.lane_offset_m,
               long_g := if ng then F32.neg s.long_g else s.long_g } st1 c
      = update_lane_alert s st1 c := by
    intro st1
    cases nl <;> simp [update_lane_alert, lane_on_cond, lane_off_cond, F32.fabsf_neg]
  have hf : ∀ st1, update_fcw_alert
      { s with lane_offset_m := if nl then F32.neg s.lane_offset_m else s.lane_offset_m,
               long_g := if ng then F32.neg s.long_g else s.long_g } st1 c
      = update_fcw_alert s st1 c := fun _ => rfl
  have hp : (process_once
      { s with lane_offset_m := if nl then F32.neg s.lane_offset_m else s.lane_offset_m,
               long_g := if ng then F32.neg s.long_g else s.long_g } wvf st c).1
      = (process_once s wvf st c).1 := by
    simp only [process_once, hr, hl, hf]
  refine ⟨hr st, hl st, hf st, hp, ?_⟩
  have hw : ∀ s1 : SensorFrame, (process_once s1 wvf st c).2.head? =
      some (Effect.writeFrame (process_once s1 wvf st c).1.isRecording) := by
    intro s1
    cases h : wvf (update_fcw_alert s1 (update_lane_alert s1 (update_recording s1 st c) c)
      c).isRecording <;> simp [process_once, h]
  rw [hw, hw, hp]

/-! ## The sensor stub -/

/-- The decimal literal `0.1f` is the binary32 value `13421773 / 2^27`, and a
quotient halfway between two binary32 values goes to the even one. -/
lemma F32.ofRatio_samples :
    F32.ofRatio 1 10 = F32.fin (mkRat 13421773 134217728) ∧
    F32.ofRatio 16777217 1 = F32.fin 16777216 ∧
    F32.ofRatio 16777219 1 = F32.fin 16777220 ∧
    F32.ofRatio (-89) 1 = F32.fin (-89) := by
  decide

set_option maxRecDepth 1000000 in
/-- Speed: `40.0f + k` for `k < 50` lies in `[40, 90)`. -/
lemma speed_range (k : Nat) (hk : k < 50) :
    F32.le (F32.fin 40) (F32.ofRatio (40 + (k : Int)) 1) = true ∧
    F32.lt (F32.ofRatio (40 + (k : Int)) 1) (F32.fin 90) = true := by
  revert k
  decide

set_option maxRecDepth 1000000 in
/-- Distance: `5.0f + k` for `k < 50` lies in `[5, 55)`. -/
lemma dist_range (k : Nat) (hk : k < 50) :
    F32.le (F32.fin 5) (F32.ofRatio (5 + (k : Int)) 1) = true ∧
    F32.lt (F32.ofRatio (5 + (k : Int)) 1) (F32.fin 55) = true := by
  revert k
  decide

set_option maxRecDepth 1000000 in
/-- Lane offset: `(k - 100) / 100.0f` for `k < 200` lies in `[-1, 1)`. -/
lemma lane_range (k : Nat) (hk : k < 200) :
    F32.le (F32.fin (-1)) (F32.ofRatio ((k : Int) - 100) 100) = true ∧
    F32.lt (F32.ofRatio ((k : Int) - 100) 100) (F32.fin 1) = true := by
  revert k
  decide

set_option maxRecDepth 1000000 in
/-- Acceleration: `(k - 20) / 10.0f` for `k < 40` lies in `[-2, 2)`. -/
lemma g_range (k : Nat) (hk : k < 40) :
    F32.le (F32.fin (-2)) (F32.ofRatio ((k : Int) - 20) 10) = true ∧
    F32.lt (F32.ofRatio ((k : Int) - 20) 10) (F32.fin 2) = true := by
  revert k
  decide

/-- C17: whatever the four calls of `rand()` return, the frame built by
`read_sensors` has speed in `[40, 90)`, distance in `[5, 55)`, lane offset in
`[-1, 1)` and acceleration in `[-2, 2)`; the four lower bounds are reached (all
at once when every call returns 0), the upper bounds never. -/
theorem read_sensors_range :
    (∀ r0 r1 r2 r3 : Nat,
      (F32.le (F32.fin 40) (read_sensors r0 r1 r2 r3).speed_kmh = true ∧
        F32.lt (read_sensors r0 r1 r2 r3).speed_kmh (F32.fin 90) = true) ∧
      (F32.le (F32.fin 5) (read_sensors r0 r1 r2 r3).front_dist_m = true ∧
        F32.lt (read_sensors r0 r1 r2 r3).front_dist_m (F32.fin 55) = true) ∧
      (F32.le (F32.fin (-1)) (read_sensors r0 r1 r2 r3).lane_offset_m = true ∧
        F32.lt (read_sensors r0 r1 r2 r3).lane_offset_m (F32.fin 1) = true) ∧
      (F32.le (F32.fin (-2)) (read_sensors r0 r1 r2 r3).long_g = true ∧
        F32.lt (read_sensors r0 r1 r2 r3).long_g (F32.fin 2) = true)) ∧
    read_sensors 0 0 0 0 = SensorFrame.mk (F32.fin 40) (F32.fin 5) (F32.fin (-1)) (F32.fin (-2)) := by
  refine ⟨fun r0 r1 r2 r3 => ⟨?_, ?_, ?_, ?_⟩, by decide⟩
  · exact speed_range (r0 % 50) (Nat.mod_lt _ (by decide))
  · exact dist_range (r1 % 50) (Nat.mod_lt _ (by decide))
  · exact lane_range (r2 % 200) (Nat.mod_lt _ (by decide))
  · exact g_range (r3 % 40) (Nat.mod_lt _ (by decide))

end Drvassist
